import Mathlib

/-!
Verification of the OBS-Mute-Indicator script (`src/scripts/OBS_Mute_Indicator.py`).

The Python module keeps four module-level globals (`debug`, `source_name`,
`sources_loaded`, `callback_name`), talks to the OBS host through a registry of
named sources, and emits observable effects: signal-handler connects and
disconnects, source-handle acquire/release pairs, gated debug log lines, and
writes to the host's private-data store under the key `"__muted__"`.

We embed this shallowly: the globals (plus the set of live signal connections,
the poller-timer registration and the private-data store, which in Python live
inside the OBS host) become an explicit `ScriptState`; the host registry is an
association list from source name to current mute flag; every function of the
script becomes a pure Lean function from registry and state to result, new
state and a list of emitted `Event`s, translated line by line from the source.
-/

namespace MuteIndicator

/-- The OBS source registry, as seen by the script: an association list from
source name to the source's current mute flag.  `obs_get_source_by_name`
succeeds exactly when the name occurs in the list. -/
abbrev Registry := List (String × Bool)

/-- `obs.obs_get_source_by_name(sn)`: first source whose name is `sn`,
returning its mute flag, or `none` when the name does not resolve. -/
def lookupSource : Registry → String → Option Bool
  | [], _ => none
  | (n, m) :: rest, sn => if n = sn then some m else lookupSource rest sn

/-- Observable effects of the script, in emission order. -/
inductive Event where
  /-- `obs_get_source_by_name` returned a live reference to source `sn`. -/
  | acquire (sn : String)
  /-- `obs_source_release` on the handle for source `sn`. -/
  | release (sn : String)
  /-- `signal_handler_connect(handler(sn), "mute", mute_callback)`. -/
  | connect (sn : String)
  /-- `signal_handler_disconnect(handler(sn), "mute", mute_callback)`. -/
  | disconnect (sn : String)
  /-- `dprint('Added callback for "sn"')`. -/
  | logAdded (sn : String)
  /-- `dprint('Removed callback for "sn"')`. -/
  | logRemoved (sn : String)
  /-- `dprint("ERROR: Could not create callback for", sn)`. -/
  | logErrAdd (sn : String)
  /-- `dprint("ERROR: Could not remove callback for", sn)`. -/
  | logErrRemove (sn : String)
  /-- `dprint("Waiting to load sources...")`. -/
  | logWaiting
  /-- `dprint("OBS Mute Indicator Script Unloaded. Goodbye! <3")`. -/
  | logGoodbye
  /-- `obs_apply_private_data` wrote string `v` (under `"__muted__"`). -/
  | output (v : String)
  deriving DecidableEq, Repr

/-- The script's module-level globals, together with the parts of host state
the script manipulates (its live signal connections, whether its
`source_loading` timer is registered, and the private-data store). -/
structure ScriptState where
  /-- Global `debug`: gate for all `dprint` diagnostics. -/
  debug : Bool
  /-- Global `source_name`: the monitored source identifier from properties. -/
  source_name : String
  /-- Global `sources_loaded`: the bootstrap "sources are loaded" flag. -/
  sources_loaded : Bool
  /-- Global `callback_name`: name recorded for the current callback, or `None`. -/
  callback_name : Option String
  /-- Names of sources whose "mute" signal currently has `mute_callback`
  connected (host-side effect of `signal_handler_connect`/`disconnect`). -/
  connections : List String
  /-- Whether the `source_loading` timer is registered with the host. -/
  timer_on : Bool
  /-- The host's private-data store (key/value strings). -/
  private_data : List (String × String)
  deriving DecidableEq, Repr

/-- `dprint`: the event is emitted only when the debug flag is set. -/
def dprintEv (debug : Bool) (e : Event) : List Event :=
  if debug then [e] else []

/-- Overwrite-or-insert a string field in the private-data store
(`obs_data_set_string` followed by `obs_apply_private_data`). -/
def setField : List (String × String) → String → String → List (String × String)
  | [], f, v => [(f, v)]
  | (g, w) :: rest, f, v =>
    if g = f then (f, v) :: rest else (g, w) :: setField rest f v

/-- Read a string field back out of the private-data store. -/
def getField : List (String × String) → String → Option String
  | [], _ => none
  | (g, w) :: rest, f => if g = f then some w else getField rest f

/-- `send_to_private_data("string", field, result)`: set one string field and
apply it to the host's private data. -/
def send_to_private_data (st : ScriptState) (field result : String) :
    ScriptState × List Event :=
  ({ st with private_data := setField st.private_data field result },
   [Event.output result])

/-- `write_output(muted)`: format `"<source_name> is muted"` /
`"<source_name> is unmuted"` and publish it under the key `"__muted__"`. -/
def write_output (st : ScriptState) (muted : Bool) : ScriptState × List Event :=
  let output := if muted then "muted" else "unmuted"
  let result := st.source_name ++ " is " ++ output
  send_to_private_data st "__muted__" result

/-- `get_muted(sn)`: look the source up by name; `None` when absent, otherwise
its mute flag, releasing the acquired reference before returning. -/
def get_muted (reg : Registry) (sn : String) : Option Bool × List Event :=
  match lookupSource reg sn with
  | none => (none, [])
  | some muted => (some muted, [Event.acquire sn, Event.release sn])

/-- `mute_callback(calldata)`: extract the boolean payload and forward it to
`write_output`. -/
def mute_callback (st : ScriptState) (muted : Bool) : ScriptState × List Event :=
  write_output st muted

/-- `remove_muted_callback(sn)`: `None` is a silent no-op returning `False`;
an unresolvable name logs an error and returns `False`; otherwise disconnect
the "mute" signal, log, release the handle and return `True`.  Note that
`callback_name` is never written here. -/
def remove_muted_callback (reg : Registry) (st : ScriptState) (sn : Option String) :
    Bool × ScriptState × List Event :=
  match sn with
  | none => (false, st, [])
  | some s =>
    match lookupSource reg s with
    | none => (false, st, dprintEv st.debug (Event.logErrRemove s))
    | some _ =>
      (true, { st with connections := st.connections.erase s },
       [Event.acquire s, Event.disconnect s]
         ++ dprintEv st.debug (Event.logRemoved s) ++ [Event.release s])

/-- `create_muted_callback(sn)`: guard (`None` or already-bound name) returns
`False`; otherwise remove any existing callback first, then resolve `sn`; on
failure log an error only when `sources_loaded`, on success connect the "mute"
signal, record `callback_name`, log and return `True`. -/
def create_muted_callback (reg : Registry) (st : ScriptState) (sn : Option String) :
    Bool × ScriptState × List Event :=
  match sn with
  | none => (false, st, [])
  | some s =>
    if some s = st.callback_name then
      (false, st, [])
    else
      let removed :=
        match st.callback_name with
        | some cn => remove_muted_callback reg st (some cn)
        | none => (false, st, [])
      let st1 := removed.2.1
      let evs1 := removed.2.2
      match lookupSource reg s with
      | none =>
        if st1.sources_loaded then
          (false, st1, evs1 ++ dprintEv st1.debug (Event.logErrAdd s))
        else
          (false, st1, evs1)
      | some _ =>
        let st2 := { st1 with
          callback_name := some s
          connections := s :: st1.connections }
        (true, st2,
         evs1 ++ [Event.acquire s, Event.connect s]
           ++ dprintEv st2.debug (Event.logAdded s) ++ [Event.release s])

/-- `source_loading()`: one tick of the startup poller.  Resolve the monitored
`source_name`; if it resolves and `create_muted_callback` succeeds, set
`sources_loaded` and unregister the timer (`remove_current_callback`);
otherwise log "Waiting to load sources...".  The acquired handle (when any) is
released at the end either way. -/
def source_loading (reg : Registry) (st : ScriptState) : ScriptState × List Event :=
  match lookupSource reg st.source_name with
  | none =>
    (st, dprintEv st.debug Event.logWaiting)
  | some _ =>
    let r := create_muted_callback reg st (some st.source_name)
    if r.1 then
      ({ r.2.1 with sources_loaded := true, timer_on := false },
       Event.acquire st.source_name :: r.2.2 ++ [Event.release st.source_name])
    else
      (r.2.1,
       Event.acquire st.source_name :: r.2.2
         ++ dprintEv r.2.1.debug Event.logWaiting ++ [Event.release st.source_name])

/-- `script_update(settings)`: store the debug flag and the selected source
name from the settings bag, and (only when `sources_loaded`) create the
callback for the new name. -/
def script_update (reg : Registry) (st : ScriptState)
    (settings_debug : Bool) (settings_source : String) : ScriptState × List Event :=
  let st1 := { st with debug := settings_debug, source_name := settings_source }
  if st1.sources_loaded then
    let r := create_muted_callback reg st1 (some settings_source)
    (r.2.1, r.2.2)
  else
    (st1, [])

/-- `script_load(settings)`: register the `source_loading` timer. -/
def script_load (st : ScriptState) : ScriptState :=
  { st with timer_on := true }

/-- `script_unload()`: unregister the poller timer, remove the callback for
`callback_name` (if any), and print the goodbye line. -/
def script_unload (reg : Registry) (st : ScriptState) : ScriptState × List Event :=
  let st1 := { st with timer_on := false }
  let r := remove_muted_callback reg st1 st1.callback_name
  (r.2.1, r.2.2 ++ dprintEv r.2.1.debug Event.logGoodbye)

/-- One host timer tick: `source_loading` runs only while its timer is
registered. -/
def poller_tick (reg : Registry) (st : ScriptState) : ScriptState × List Event :=
  if st.timer_on then source_loading reg st else (st, [])

/-- Run `k` poller ticks (ticks `0, 1, ..., k-1`), with the registry at tick
`t` given by the schedule `regs t`, concatenating the emitted events. -/
def run_poller (regs : Nat → Registry) (st : ScriptState) : Nat → ScriptState × List Event
  | 0 => (st, [])
  | k + 1 =>
    let r := run_poller regs st k
    let r2 := poller_tick (regs k) r.1
    (r2.1, r.2 ++ r2.2)

/-- A state is canonical when the recorded `callback_name`, if any, has at
most one live connection.  Every state reachable through the script's own
operations from a fresh load satisfies this; it rules out artificial states
with duplicated connections for the recorded name. -/
def at_most_once (st : ScriptState) : Bool :=
  match st.callback_name with
  | none => true
  | some n => decide (st.connections.count n ≤ 1)

/-! ### Concrete states and registries used by witnesses and counterexamples -/

/-- A registry with the single (unmuted) source `"mic"`. -/
def regMic : Registry := [("mic", false)]

/-- A registry with sources `"mic"` and `"aux"`. -/
def reg2 : Registry := [("mic", false), ("aux", true)]

/-- A post-bootstrap state with nothing bound: debug on, monitoring `"mic"`. -/
def stUnbound : ScriptState :=
  { debug := true, source_name := "mic", sources_loaded := true,
    callback_name := none, connections := [], timer_on := false,
    private_data := [] }

/-- A post-bootstrap state bound to `"mic"`. -/
def stBound : ScriptState :=
  { stUnbound with callback_name := some "mic", connections := ["mic"] }

/-- A freshly loaded state: bootstrap flag still false, poller timer armed. -/
def stFresh : ScriptState :=
  { stUnbound with sources_loaded := false, timer_on := true }

/-- A registry schedule on which `"mic"` first resolves at tick 2. -/
def regSched : Nat → Registry := fun t => if 2 ≤ t then regMic else []

/-! ### Helper lemmas -/

/-- Setting a field and reading it back yields exactly the written value:
each write fully replaces the previous value under that key. -/
theorem getField_setField (pd : List (String × String)) (f v : String) :
    getField (setField pd f v) f = some v := by
  induction pd with
  | nil => simp [setField, getField]
  | cons hd tl ih =>
    obtain ⟨g, w⟩ := hd
    by_cases h : g = f <;> simp [setField, getField, h, ih]

/-- `remove_muted_callback` touches only the connection list: every other
field of the state, `callback_name` included, is preserved on every path. -/
theorem remove_fields (reg : Registry) (st : ScriptState) (sn : Option String) :
    (remove_muted_callback reg st sn).2.1.callback_name = st.callback_name ∧
    (remove_muted_callback reg st sn).2.1.debug = st.debug ∧
    (remove_muted_callback reg st sn).2.1.source_name = st.source_name ∧
    (remove_muted_callback reg st sn).2.1.sources_loaded = st.sources_loaded ∧
    (remove_muted_callback reg st sn).2.1.timer_on = st.timer_on ∧
    (remove_muted_callback reg st sn).2.1.private_data = st.private_data := by
  cases sn with
  | none => exact ⟨rfl, rfl, rfl, rfl, rfl, rfl⟩
  | some s => cases h : lookupSource reg s <;> simp [remove_muted_callback, h]

/-- `remove_muted_callback` never emits a connect, an added-callback log, or a
create-error log. -/
theorem remove_events (reg : Registry) (st : ScriptState) (sn : Option String) (m : String) :
    Event.connect m ∉ (remove_muted_callback reg st sn).2.2 ∧
    Event.logAdded m ∉ (remove_muted_callback reg st sn).2.2 ∧
    Event.logErrAdd m ∉ (remove_muted_callback reg st sn).2.2 := by
  cases sn with
  | none => simp [remove_muted_callback]
  | some s =>
    cases h : lookupSource reg s <;> cases hd : st.debug <;>
      simp [remove_muted_callback, dprintEv, h, hd]

/-- `create_muted_callback` touches only `callback_name` and the connection
list: the debug flag, monitored name, bootstrap flag, timer registration and
private data are preserved on every path. -/
theorem create_fields (reg : Registry) (st : ScriptState) (sn : Option String) :
    (create_muted_callback reg st sn).2.1.debug = st.debug ∧
    (create_muted_callback reg st sn).2.1.source_name = st.source_name ∧
    (create_muted_callback reg st sn).2.1.sources_loaded = st.sources_loaded ∧
    (create_muted_callback reg st sn).2.1.timer_on = st.timer_on ∧
    (create_muted_callback reg st sn).2.1.private_data = st.private_data := by
  cases sn with
  | none => exact ⟨rfl, rfl, rfl, rfl, rfl⟩
  | some s =>
    by_cases hg : some s = st.callback_name
    · simp [create_muted_callback, hg]
    · cases hcb : st.callback_name with
      | none =>
        cases h : lookupSource reg s <;> cases hsl : st.sources_loaded <;>
          simp [create_muted_callback, hg, hcb, h, hsl]
      | some c =>
        have hg' : ¬ (s = c) := by simp [hcb] at hg; exact hg
        have hr := remove_fields reg st (some c)
        cases h : lookupSource reg s <;> cases hsl : st.sources_loaded <;>
          simp [create_muted_callback, hg', hcb, h, hsl, hr.2.1, hr.2.2.1,
            hr.2.2.2.1, hr.2.2.2.2.1, hr.2.2.2.2.2]

/-- `create_muted_callback` preserves `callback_name` whenever it fails. -/
theorem create_fail_callback_name (reg : Registry) (st : ScriptState) (sn : Option String)
    (h : (create_muted_callback reg st sn).1 = false) :
    (create_muted_callback reg st sn).2.1.callback_name = st.callback_name := by
  cases sn with
  | none => rfl
  | some s =>
    by_cases hg : some s = st.callback_name
    · simp [create_muted_callback, hg]
    · cases hcb : st.callback_name with
      | none =>
        cases hl : lookupSource reg s <;> cases hsl : st.sources_loaded <;>
          simp [create_muted_callback, hg, hcb, hl, hsl] at h ⊢
      | some c =>
        have hg' : ¬ (s = c) := by simp [hcb] at hg; exact hg
        have hr := remove_fields reg st (some c)
        rw [hcb] at hr
        cases hl : lookupSource reg s <;> cases hsl : st.sources_loaded <;>
          simp [create_muted_callback, hg', hcb, hl, hsl, hr.2.2.2.1, hr.1] at h ⊢

/-- The transition guard of `create_muted_callback`: a `None` name or the
currently recorded name short-circuits to a perfect no-op returning false. -/
theorem bind_guard_noop (reg : Registry) (st : ScriptState) (sn : Option String)
    (h : sn = none ∨ sn = st.callback_name) :
    create_muted_callback reg st sn = (false, st, []) := by
  rcases h with h | h
  · subst h; rfl
  · cases sn with
    | none => rfl
    | some s => simp [create_muted_callback, ← h]

/-- The removal step inside `create_muted_callback` coincides with
`remove_muted_callback` applied to the recorded `callback_name`, also when
nothing is recorded. -/
theorem removed_step (reg : Registry) (st : ScriptState) :
    (match st.callback_name with
      | some cn => remove_muted_callback reg st (some cn)
      | none => (false, st, [])) =
      remove_muted_callback reg st st.callback_name := by
  cases hcb : st.callback_name <;> simp [remove_muted_callback]

/-- Binding a resolvable name different from the recorded one always succeeds:
it performs the removal step, then records the name, pushes one connection and
emits acquire/connect/(log)/release. -/
theorem create_success (reg : Registry) (st : ScriptState) (s : String) (m : Bool)
    (hm : lookupSource reg s = some m) (hnb : ¬ (some s = st.callback_name)) :
    create_muted_callback reg st (some s) =
      (true,
       { (remove_muted_callback reg st st.callback_name).2.1 with
           callback_name := some s,
           connections := s :: (remove_muted_callback reg st st.callback_name).2.1.connections },
       (remove_muted_callback reg st st.callback_name).2.2
         ++ [Event.acquire s, Event.connect s]
         ++ (if st.debug then [Event.logAdded s] else []) ++ [Event.release s]) := by
  have hd := (remove_fields reg st st.callback_name).2.1
  cases hcb : st.callback_name with
  | none =>
    simp [create_muted_callback, remove_muted_callback, hnb, hcb, hm, dprintEv]
  | some c =>
    rw [hcb] at hd hnb
    simp [create_muted_callback, hnb, hcb, hm, dprintEv, hd]

/-- From an unbound state, binding a resolvable name succeeds, records the
name, pushes one connection and emits acquire/connect/(log)/release. -/
theorem create_unbound_success (reg : Registry) (st : ScriptState) (s : String) (m : Bool)
    (hcb : st.callback_name = none) (hm : lookupSource reg s = some m) :
    create_muted_callback reg st (some s) =
      (true,
       { st with callback_name := some s, connections := s :: st.connections },
       [Event.acquire s, Event.connect s]
         ++ (if st.debug then [Event.logAdded s] else []) ++ [Event.release s]) := by
  have hg : ¬ (some s = st.callback_name) := by simp [hcb]
  simp [create_muted_callback, hg, hcb, hm, dprintEv]

/-- A successful bind records exactly the requested name. -/
theorem create_success_callback_name (reg : Registry) (st : ScriptState) (s : String) (m : Bool)
    (hm : lookupSource reg s = some m) (hnb : ¬ (some s = st.callback_name)) :
    (create_muted_callback reg st (some s)).2.1.callback_name = some s := by
  rw [create_success reg st s m hm hnb]

/-- Binding an unresolvable name different from the recorded one fails after
performing the removal step: the result state is the removal-step state. -/
theorem create_other_fail (reg : Registry) (st : ScriptState) (s : String)
    (hs : lookupSource reg s = none) (hnb : ¬ (some s = st.callback_name)) :
    (create_muted_callback reg st (some s)).1 = false ∧
    (create_muted_callback reg st (some s)).2.1 =
      (remove_muted_callback reg st st.callback_name).2.1 ∧
    (create_muted_callback reg st (some s)).2.2 =
      (remove_muted_callback reg st st.callback_name).2.2
        ++ (if st.sources_loaded then
              (if st.debug then [Event.logErrAdd s] else []) else []) := by
  have hsl' := (remove_fields reg st st.callback_name).2.2.2.1
  have hd := (remove_fields reg st st.callback_name).2.1
  cases hcb : st.callback_name with
  | none =>
    cases hsl : st.sources_loaded <;>
      simp [create_muted_callback, remove_muted_callback, hnb, hcb, hs, hsl, dprintEv]
  | some c =>
    rw [hcb] at hsl' hd hnb
    cases hsl : st.sources_loaded <;>
      rw [hsl] at hsl' <;>
      simp [create_muted_callback, hnb, hcb, hs, hsl, hsl', hd, dprintEv]

/-! ### Claim C3 -/

/-- Claim C3, as stated, is false: the empty string is not special-cased by
the guard of `create_muted_callback` (the Python guard is
`sn is None or sn == callback_name`).  Concretely, with `"mic"` registered and
the manager bound to `"mic"`, `bind("")` first detaches the `"mic"`
subscription (emitting a disconnect) and changes the state, instead of being
a no-op. -/
theorem C3_counterexample :
    Event.disconnect "mic" ∈ (create_muted_callback regMic stBound (some "")).2.2 ∧
    (create_muted_callback regMic stBound (some "")).2.1 ≠ stBound ∧
    (create_muted_callback regMic stBound (some "")).1 = false := by
  decide

/-- Claim C3 (amended): for a null name, or a name equal to the currently
bound name, `bind` is a perfect no-op — same state, no emitted events — and
returns `false`.  (The empty string is not guarded; it is treated like any
other name.) -/
theorem C3_guard_noop (reg : Registry) (st : ScriptState) (sn : Option String)
    (h : sn = none ∨ sn = st.callback_name) :
    create_muted_callback reg st sn = (false, st, []) :=
  bind_guard_noop reg st sn h

/-- Witness for `C3_guard_noop` at a concrete bound state and its bound
name. -/
theorem C3_guard_noop_witness :
    create_muted_callback regMic stBound (some "mic") = (false, stBound, []) :=
  C3_guard_noop regMic stBound (some "mic") (Or.inr (by decide))

/-! ### Claim C6 -/

/-- Claim C6: `write_output` stores, under the private-data key `"__muted__"`,
exactly `"<source_name> is muted"` when the payload is true and exactly
`"<source_name> is unmuted"` when it is false, fully replacing any previous
value; and after a successful `create_muted_callback` on the monitored name, a
mute-change event carrying `true` leaves the slot holding exactly
`"<name> is muted"`, and a subsequent event carrying `false` updates it to
`"<name> is unmuted"`. -/
theorem C6_publish_format :
    (∀ (st : ScriptState) (muted : Bool),
      getField (write_output st muted).1.private_data "__muted__" =
        some (st.source_name ++ " is " ++ (if muted then "muted" else "unmuted"))) ∧
    (∀ (reg : Registry) (st : ScriptState),
      (create_muted_callback reg st (some st.source_name)).1 = true →
      getField
          (mute_callback (create_muted_callback reg st (some st.source_name)).2.1
            true).1.private_data "__muted__" =
        some (st.source_name ++ " is muted") ∧
      getField
          (mute_callback
            (mute_callback (create_muted_callback reg st (some st.source_name)).2.1
              true).1 false).1.private_data "__muted__" =
        some (st.source_name ++ " is unmuted")) := by
  have hw : ∀ (st : ScriptState) (muted : Bool),
      getField (write_output st muted).1.private_data "__muted__" =
        some (st.source_name ++ " is " ++ (if muted then "muted" else "unmuted")) := by
    intro st muted
    simp [write_output, send_to_private_data, getField_setField]
  refine ⟨hw, ?_⟩
  intro reg st _
  have hsn : (create_muted_callback reg st (some st.source_name)).2.1.source_name =
      st.source_name := (create_fields reg st (some st.source_name)).2.1
  constructor
  · have h1 := hw (create_muted_callback reg st (some st.source_name)).2.1 true
    rw [hsn] at h1
    simpa [mute_callback, String.append_assoc] using h1
  · have h2 := hw (mute_callback
      (create_muted_callback reg st (some st.source_name)).2.1 true).1 false
    have hsn2 : (mute_callback
        (create_muted_callback reg st (some st.source_name)).2.1 true).1.source_name =
        st.source_name := by
      simp [mute_callback, write_output, send_to_private_data, hsn]
    rw [hsn2] at h2
    simpa [mute_callback, String.append_assoc] using h2

/-- Witness for `C6_publish_format`: bind `"mic"`, deliver a muted event and
then an unmuted one; the slot holds the exact strings. -/
theorem C6_publish_format_witness :
    getField
        (mute_callback (create_muted_callback regMic stUnbound (some stUnbound.source_name)).2.1
          true).1.private_data "__muted__" =
      some (stUnbound.source_name ++ " is muted") :=
  (C6_publish_format.2 regMic stUnbound (by decide)).1

/-! ### Claim C7 -/

/-- Claim C7: `script_update` stores the settings' debug flag into the global
debug flag and the settings' source string into the monitored source name,
and invokes `create_muted_callback` on the new name exactly when
`sources_loaded` is already true (when it is false, the update performs no
bind and emits nothing). -/
theorem C7_script_update (reg : Registry) (st : ScriptState) (d : Bool) (s : String) :
    (script_update reg st d s).1.debug = d ∧
    (script_update reg st d s).1.source_name = s ∧
    (st.sources_loaded = false →
      script_update reg st d s = ({ st with debug := d, source_name := s }, [])) ∧
    (st.sources_loaded = true →
      script_update reg st d s =
        (create_muted_callback reg { st with debug := d, source_name := s } (some s)).2) := by
  refine ⟨?_, ?_, ?_, ?_⟩
  · have h1 := (create_fields reg { st with debug := d, source_name := s } (some s)).1
    cases hsl : st.sources_loaded <;> simp_all [script_update]
  · have h2 := (create_fields reg { st with debug := d, source_name := s } (some s)).2.1
    cases hsl : st.sources_loaded <;> simp_all [script_update]
  · intro hsl; simp [script_update, hsl]
  · intro hsl; simp [script_update, hsl]

/-- Witness for `C7_script_update`: before bootstrap the update only stores
the settings; the debug flag is taken from the settings either way. -/
theorem C7_script_update_witness :
    script_update regMic stFresh true "aux" =
      ({ stFresh with debug := true, source_name := "aux" }, []) ∧
    (script_update regMic stUnbound false "mic").1.debug = false :=
  ⟨(C7_script_update regMic stFresh true "aux").2.2.1 (by decide),
   (C7_script_update regMic stUnbound false "mic").1⟩

/-! ### Claim C9 -/

/-- Claim C9: `get_muted` returns the distinguished absent value (`none`)
exactly when the name does not resolve in the registry, and otherwise the
source's current mute flag; and on every path the handle acquisitions and
releases it performs are paired (equal counts, at most one of each). -/
theorem C9_get_muted (reg : Registry) (sn : String) :
    (get_muted reg sn).1 = lookupSource reg sn ∧
    ((get_muted reg sn).2.count (Event.acquire sn) =
      (get_muted reg sn).2.count (Event.release sn)) ∧
    (get_muted reg sn).2.count (Event.acquire sn) ≤ 1 := by
  cases h : lookupSource reg sn <;> simp [get_muted, h]

/-! ### Claim C1 -/

/-- Claim C1, as stated, is false: a failed bind does not always leave the
manager Unbound.  With `"mic"` registered and the manager bound to `"mic"`,
`bind("speaker")` (unresolvable) returns false but leaves
`callback_name = some "mic"`: the manager is not in the Unbound state (and the
`"mic"` subscription has been detached, so the state is not a previously-valid
one either). -/
theorem C1_counterexample :
    (create_muted_callback regMic stBound (some "speaker")).1 = false ∧
    (create_muted_callback regMic stBound (some "speaker")).2.1.callback_name ≠ none := by
  decide

/-- Claim C1 (amended): binding an unresolvable name never throws (the
embedding is a total function), returns false, leaves the recorded bound name
unchanged, and emits the create-error diagnostic only if the bootstrap flag is
already true; starting from the Unbound state the manager remains exactly in
the previous state, while starting from a Bound state only the old
subscription may be detached — the recorded name is not reset to Unbound. -/
theorem C1_bind_unresolvable (reg : Registry) (st : ScriptState) (s : String)
    (h : lookupSource reg s = none) :
    (create_muted_callback reg st (some s)).1 = false ∧
    (create_muted_callback reg st (some s)).2.1.callback_name = st.callback_name ∧
    (Event.logErrAdd s ∈ (create_muted_callback reg st (some s)).2.2 →
      st.sources_loaded = true) ∧
    (st.callback_name = none → (create_muted_callback reg st (some s)).2.1 = st) := by
  by_cases hg : some s = st.callback_name
  · rw [bind_guard_noop reg st (some s) (Or.inr hg)]
    refine ⟨rfl, rfl, ?_, fun _ => rfl⟩
    intro hmem
    cases hmem
  · obtain ⟨h1, h2, h3⟩ := create_other_fail reg st s h hg
    refine ⟨h1, ?_, ?_, ?_⟩
    · rw [h2]; exact (remove_fields reg st st.callback_name).1
    · intro hmem
      rw [h3] at hmem
      rcases List.mem_append.mp hmem with hmem | hmem
      · exact absurd hmem (remove_events reg st st.callback_name s).2.2
      · cases hsl : st.sources_loaded with
        | true => rfl
        | false => rw [hsl] at hmem; cases hmem
    · intro hcb
      rw [h2, hcb]
      rfl

/-- Witness for `C1_bind_unresolvable`: from the Unbound state, a bind of the
unregistered `"speaker"` returns false and changes nothing. -/
theorem C1_bind_unresolvable_witness :
    (create_muted_callback regMic stUnbound (some "speaker")).1 = false ∧
    (create_muted_callback regMic stUnbound (some "speaker")).2.1 = stUnbound :=
  ⟨(C1_bind_unresolvable regMic stUnbound "speaker" (by decide)).1,
   (C1_bind_unresolvable regMic stUnbound "speaker" (by decide)).2.2.2 (by decide)⟩

/-! ### Claim C4 -/

/-- Claim C4, as stated, is false for a name absent from the registry: with an
empty registry, `bind("mic")` twice produces zero added-callback events and
zero connects (not exactly one), and the second call is not a silent no-op —
it emits the create-error diagnostic again. -/
theorem C4_counterexample :
    ((create_muted_callback [] stUnbound (some "mic")).2.2 ++
        (create_muted_callback [] (create_muted_callback [] stUnbound (some "mic")).2.1
          (some "mic")).2.2).count (Event.logAdded "mic") = 0 ∧
    ((create_muted_callback [] stUnbound (some "mic")).2.2 ++
        (create_muted_callback [] (create_muted_callback [] stUnbound (some "mic")).2.1
          (some "mic")).2.2).count (Event.connect "mic") = 0 ∧
    (create_muted_callback [] (create_muted_callback [] stUnbound (some "mic")).2.1
        (some "mic")).2.2 ≠ [] := by
  decide

/-- Claim C4 (amended): for a resolvable name `s` different from the currently
bound one, `bind(s)` immediately followed by `bind(s)` produces exactly one
connect of `s`, and (when debug is on) exactly one added-callback log event,
never two; the second call is a silent no-op returning false — it never
disconnects and reconnects. -/
theorem C4_bind_idempotent (reg : Registry) (st : ScriptState) (s : String) (m : Bool)
    (hm : lookupSource reg s = some m) (hnb : ¬ (some s = st.callback_name)) :
    (create_muted_callback reg st (some s)).1 = true ∧
    ((create_muted_callback reg st (some s)).2.2 ++
        (create_muted_callback reg (create_muted_callback reg st (some s)).2.1
          (some s)).2.2).count (Event.connect s) = 1 ∧
    (st.debug = true →
      ((create_muted_callback reg st (some s)).2.2 ++
          (create_muted_callback reg (create_muted_callback reg st (some s)).2.1
            (some s)).2.2).count (Event.logAdded s) = 1) ∧
    create_muted_callback reg (create_muted_callback reg st (some s)).2.1 (some s) =
      (false, (create_muted_callback reg st (some s)).2.1, []) := by
  have hcb2 := create_success_callback_name reg st s m hm hnb
  have hsecond := bind_guard_noop reg (create_muted_callback reg st (some s)).2.1 (some s)
    (Or.inr hcb2.symm)
  have hnc := (remove_events reg st st.callback_name s).1
  have hna := (remove_events reg st st.callback_name s).2.1
  refine ⟨?_, ?_, ?_, hsecond⟩
  · rw [create_success reg st s m hm hnb]
  · rw [hsecond, create_success reg st s m hm hnb]
    simp [List.count_append, List.count_cons, List.count_eq_zero.mpr hnc]
    cases st.debug <;> simp
  · intro hdbg
    rw [hsecond, create_success reg st s m hm hnb, hdbg]
    simp [List.count_append, List.count_cons, List.count_eq_zero.mpr hna]

/-- Witness for `C4_bind_idempotent`: binding `"mic"` twice from the Unbound
state connects once and the second call is a silent failure. -/
theorem C4_bind_idempotent_witness :
    ((create_muted_callback regMic stUnbound (some "mic")).2.2 ++
        (create_muted_callback regMic (create_muted_callback regMic stUnbound (some "mic")).2.1
          (some "mic")).2.2).count (Event.connect "mic") = 1 :=
  (C4_bind_idempotent regMic stUnbound "mic" false (by decide) (by decide)).2.1

/-! ### Claim C10 -/

/-- Claim C10: `remove_muted_callback` never modifies the recorded bound name
`callback_name` on any of its paths; consequently, after a successful
`bind(n1)` followed by a `bind(n2)` whose resolution of `n2` fails, the
recorded bound name is still `n1` even though the `n1` subscription was
detached, and a subsequent `bind(n1)` returns false with no events — it is
treated as already bound and does not re-attach the subscription. -/
theorem C10_unbind_frame :
    (∀ (reg : Registry) (st : ScriptState) (sn : Option String),
      (remove_muted_callback reg st sn).2.1.callback_name = st.callback_name) ∧
    (∀ (reg : Registry) (st : ScriptState) (n1 n2 : String) (m : Bool),
      st.callback_name = none → n1 ∉ st.connections →
      lookupSource reg n1 = some m → lookupSource reg n2 = none →
      (create_muted_callback reg st (some n1)).1 = true ∧
      (create_muted_callback reg
          (create_muted_callback reg st (some n1)).2.1 (some n2)).1 = false ∧
      (create_muted_callback reg
          (create_muted_callback reg st (some n1)).2.1 (some n2)).2.1.callback_name
        = some n1 ∧
      n1 ∉ (create_muted_callback reg
          (create_muted_callback reg st (some n1)).2.1 (some n2)).2.1.connections ∧
      create_muted_callback reg
          (create_muted_callback reg
            (create_muted_callback reg st (some n1)).2.1 (some n2)).2.1 (some n1) =
        (false,
         (create_muted_callback reg
            (create_muted_callback reg st (some n1)).2.1 (some n2)).2.1, [])) := by
  constructor
  · intro reg st sn
    exact (remove_fields reg st sn).1
  · intro reg st n1 n2 m hcb hn1 h1 h2
    have hne : ¬ (some n2 = some n1) := by
      intro hx
      rw [Option.some_inj.mp hx, h1] at h2
      cases h2
    have hb1 := create_unbound_success reg st n1 m hcb h1
    rw [hb1]
    have hfail := create_other_fail reg
      { st with callback_name := some n1, connections := n1 :: st.connections }
      n2 h2 (by simpa using hne)
    refine ⟨rfl, hfail.1, ?_, ?_, ?_⟩
    · rw [hfail.2.1]
      simp [remove_muted_callback, h1]
    · rw [hfail.2.1]
      simp [remove_muted_callback, h1, List.erase_cons_head]
      exact hn1
    · apply bind_guard_noop
      refine Or.inr ?_
      rw [hfail.2.1]
      simp [remove_muted_callback, h1]

/-- Witness for `C10_unbind_frame`: bind `"mic"`, fail to bind the absent
`"speaker"`; the recorded name is still `"mic"`, its subscription is gone, and
re-binding `"mic"` silently fails. -/
theorem C10_unbind_frame_witness :
    (create_muted_callback regMic
        (create_muted_callback regMic stUnbound (some "mic")).2.1
        (some "speaker")).2.1.callback_name = some "mic" ∧
    "mic" ∉ (create_muted_callback regMic
        (create_muted_callback regMic stUnbound (some "mic")).2.1
        (some "speaker")).2.1.connections :=
  ⟨(C10_unbind_frame.2 regMic stUnbound "mic" "speaker" false (by decide) (by decide)
      (by decide) (by decide)).2.2.1,
   (C10_unbind_frame.2 regMic stUnbound "mic" "speaker" false (by decide) (by decide)
      (by decide) (by decide)).2.2.2.1⟩

/-! ### Claim C2 -/

/-- Claim C2: for distinct names `n1 ≠ n2` that both resolve, starting from
the Unbound state (nothing recorded, no live connection; debug on so the log
events are observable), `bind(n1)` then `bind(n2)` first releases the `n1`
binding and then creates the `n2` one: the second call's event trace is
exactly the removal of `n1` (one disconnect and one removed-callback log)
followed by the creation for `n2` (one connect and one added-callback log), in
that order; the connection list is `[n1]` after the first call and `[n2]`
after the second — at every instant zero or one active bindings exist. -/
theorem C2_rebind_order (reg : Registry) (st : ScriptState) (n1 n2 : String) (m1 m2 : Bool)
    (hne : ¬ (n1 = n2)) (h1 : lookupSource reg n1 = some m1)
    (h2 : lookupSource reg n2 = some m2)
    (hcb : st.callback_name = none) (hconn : st.connections = [])
    (hdbg : st.debug = true) :
    (create_muted_callback reg st (some n1)).1 = true ∧
    (create_muted_callback reg st (some n1)).2.2 =
      [Event.acquire n1, Event.connect n1, Event.logAdded n1, Event.release n1] ∧
    (create_muted_callback reg st (some n1)).2.1.connections = [n1] ∧
    (create_muted_callback reg
        (create_muted_callback reg st (some n1)).2.1 (some n2)).1 = true ∧
    (create_muted_callback reg
        (create_muted_callback reg st (some n1)).2.1 (some n2)).2.2 =
      [Event.acquire n1, Event.disconnect n1, Event.logRemoved n1, Event.release n1,
       Event.acquire n2, Event.connect n2, Event.logAdded n2, Event.release n2] ∧
    (create_muted_callback reg
        (create_muted_callback reg st (some n1)).2.1 (some n2)).2.1.connections = [n2] := by
  have hb1 := create_unbound_success reg st n1 m1 hcb h1
  have hnb2 : ¬ (some n2 = ({ st with
      callback_name := some n1,
      connections := n1 :: st.connections } : ScriptState).callback_name) := by
    simpa using Ne.symm hne
  have hb2 := create_success reg
    { st with callback_name := some n1, connections := n1 :: st.connections }
    n2 m2 h2 hnb2
  simp [remove_muted_callback, h1, dprintEv, hdbg, hconn] at hb2
  rw [hb1]
  refine ⟨rfl, ?_, ?_, ?_, ?_, ?_⟩ <;> simp [hconn, hdbg, hb2]

/-- Witness for `C2_rebind_order`: with `"mic"` and `"aux"` registered, the
rebind's trace removes `"mic"` before adding `"aux"`. -/
theorem C2_rebind_order_witness :
    (create_muted_callback reg2
        (create_muted_callback reg2 stUnbound (some "mic")).2.1 (some "aux")).2.2 =
      [Event.acquire "mic", Event.disconnect "mic", Event.logRemoved "mic",
       Event.release "mic", Event.acquire "aux", Event.connect "aux",
       Event.logAdded "aux", Event.release "aux"] :=
  (C2_rebind_order reg2 stUnbound "mic" "aux" false true (by decide) (by decide)
    (by decide) (by decide) (by decide) (by decide)).2.2.2.2.1

/-! ### Claim C8 -/

/-- `script_unload` never emits a connect event. -/
theorem unload_no_connect (reg : Registry) (st : ScriptState) (x : String) :
    Event.connect x ∉ (script_unload reg st).2 := by
  intro hmem
  have hr := (remove_events reg { st with timer_on := false } st.callback_name x).1
  simp only [script_unload] at hmem
  rcases List.mem_append.mp hmem with hmem | hmem
  · exact hr hmem
  · revert hmem
    unfold dprintEv
    split <;> simp

/-- Claim C8, as stated, is false in its second half: because
`remove_muted_callback` never clears `callback_name`, a second `script_unload`
in a row re-resolves the recorded name and — when it still resolves — performs
another `signal_handler_disconnect`, so the second call is not free of
subscription operations.  Concretely, unloading twice while bound to the
registered `"mic"` emits a disconnect of `"mic"` on the second call. -/
theorem C8_counterexample :
    Event.disconnect "mic" ∈
      (script_unload regMic (script_unload regMic stBound).1).2 := by
  decide

/-- Claim C8 (amended): `script_unload` always unregisters the poller timer,
and called while Bound to a still-registered name it performs exactly one
matching disconnect of that name and erases its connection; called twice in a
row (from any canonical state, i.e. the recorded name has at most one live
connection) the second call changes no state and attaches nothing — though it
may redundantly re-issue a harmless disconnect of the already-detached
subscription. -/
theorem C8_unload (reg : Registry) (st : ScriptState) :
    (script_unload reg st).1.timer_on = false ∧
    (∀ (n : String) (m : Bool), st.callback_name = some n →
      lookupSource reg n = some m →
      (script_unload reg st).2.count (Event.disconnect n) = 1 ∧
      (script_unload reg st).1.connections = st.connections.erase n) ∧
    (at_most_once st = true →
      (script_unload reg (script_unload reg st).1).1 = (script_unload reg st).1) ∧
    (∀ x : String, Event.connect x ∉ (script_unload reg (script_unload reg st).1).2) := by
  refine ⟨?_, ?_, ?_, fun x => unload_no_connect reg (script_unload reg st).1 x⟩
  · have hf := (remove_fields reg { st with timer_on := false } st.callback_name).2.2.2.2.1
    simpa [script_unload] using hf
  · intro n m hcb hm
    constructor
    · cases hdbg : st.debug <;>
        simp [script_unload, remove_muted_callback, hcb, hm, dprintEv, hdbg,
          List.count_append, List.count_cons]
    · simp [script_unload, remove_muted_callback, hcb, hm]
  · intro hcanon
    cases hcb : st.callback_name with
    | none =>
      simp [script_unload, remove_muted_callback, hcb]
    | some n =>
      cases hm : lookupSource reg n with
      | none =>
        simp [script_unload, remove_muted_callback, hcb, hm]
      | some m =>
        have hcount : st.connections.count n ≤ 1 := by
          unfold at_most_once at hcanon
          rw [hcb] at hcanon
          exact of_decide_eq_true hcanon
        have hzero : (st.connections.erase n).count n = 0 := by
          rw [List.count_erase_self]
          omega
        have hnotmem : n ∉ st.connections.erase n := List.count_eq_zero.mp hzero
        have herase : (st.connections.erase n).erase n = st.connections.erase n :=
          List.erase_of_not_mem hnotmem
        simp [script_unload, remove_muted_callback, hcb, hm, herase]

/-- Witness for `C8_unload`: unloading while bound to the registered `"mic"`
disconnects it exactly once, and a second unload leaves the state fixed. -/
theorem C8_unload_witness :
    (script_unload regMic stBound).2.count (Event.disconnect "mic") = 1 ∧
    (script_unload regMic (script_unload regMic stBound).1).1 =
      (script_unload regMic stBound).1 :=
  ⟨((C8_unload regMic stBound).2.1 "mic" false (by decide) (by decide)).1,
   (C8_unload regMic stBound).2.2.1 (by decide)⟩

/-! ### Claim C5 -/

/-- Once the poller timer is unregistered, ticks do nothing: the state is
frozen and no further events are ever emitted. -/
theorem run_poller_frozen (regs : Nat → Registry) (st : ScriptState)
    (h : st.timer_on = false) : ∀ k, run_poller regs st k = (st, []) := by
  intro k
  induction k with
  | zero => rfl
  | succ n ih => simp [run_poller, ih, poller_tick, h]

/-- While the monitored source does not resolve, every tick leaves the state
unchanged and emits only the debug-gated waiting message. -/
theorem run_poller_waiting (regs : Nat → Registry) (st : ScriptState)
    (htimer : st.timer_on = true) :
    ∀ k, (∀ t, t < k → lookupSource (regs t) st.source_name = none) →
    run_poller regs st k =
      (st, if st.debug then List.replicate k Event.logWaiting else []) := by
  intro k
  induction k with
  | zero =>
    intro _
    cases st.debug <;> simp [run_poller]
  | succ n ih =>
    intro hall
    have hn := hall n (Nat.lt_succ_self n)
    have ihh := ih (fun t ht => hall t (Nat.lt_trans ht (Nat.lt_succ_self n)))
    cases hd : st.debug <;>
      simp [run_poller, ihh, poller_tick, htimer, source_loading, hn, dprintEv, hd,
        List.replicate_succ']

/-- A tick on which the monitored source resolves while nothing is bound:
the bind succeeds, the bootstrap flag is set, the timer is unregistered, and
the acquire/connect/log/release events of the successful bind are emitted. -/
theorem source_loading_success (reg : Registry) (st : ScriptState) (m : Bool)
    (hcb : st.callback_name = none) (hm : lookupSource reg st.source_name = some m) :
    source_loading reg st =
      ({ st with callback_name := some st.source_name,
                 connections := st.source_name :: st.connections,
                 sources_loaded := true, timer_on := false },
       [Event.acquire st.source_name, Event.acquire st.source_name,
        Event.connect st.source_name]
         ++ (if st.debug then [Event.logAdded st.source_name] else [])
         ++ [Event.release st.source_name, Event.release st.source_name]) := by
  have hb := create_unbound_success reg st st.source_name m hcb hm
  cases hd : st.debug <;> simp [source_loading, hm, hb, hd]

/-- Claim C5: in a run where the monitored source is unresolvable on every
tick before `N` and resolves on tick `N` (starting freshly loaded: bootstrap
flag false, nothing bound, timer armed), the poller binds exactly once — on
tick `N`, whose trace holds the single connect — sets the bootstrap flag to
true, and unregisters its own timer, so that for every horizon `M > N` the run
is identical: no tick after `N` contributes anything; every earlier tick only
emits the debug-gated waiting message. -/
theorem C5_poller (regs : Nat → Registry) (st : ScriptState) (N M : Nat) (m : Bool)
    (_hload : st.sources_loaded = false)
    (hcb : st.callback_name = none)
    (htimer : st.timer_on = true)
    (hbefore : ∀ t, t < N → lookupSource (regs t) st.source_name = none)
    (hN : lookupSource (regs N) st.source_name = some m)
    (hM : N < M) :
    run_poller regs st M =
      ({ st with callback_name := some st.source_name,
                 connections := st.source_name :: st.connections,
                 sources_loaded := true, timer_on := false },
       (if st.debug then List.replicate N Event.logWaiting else []) ++
         ([Event.acquire st.source_name, Event.acquire st.source_name,
           Event.connect st.source_name]
           ++ (if st.debug then [Event.logAdded st.source_name] else [])
           ++ [Event.release st.source_name, Event.release st.source_name])) := by
  induction M with
  | zero => exact absurd hM (Nat.not_lt_zero N)
  | succ M ih =>
    rcases Nat.lt_succ_iff_lt_or_eq.mp hM with hM' | hM'
    · have hrec := ih hM'
      simp [run_poller, hrec, poller_tick]
    · subst hM'
      rw [run_poller]
      rw [run_poller_waiting regs st htimer N hbefore]
      simp [poller_tick, htimer, source_loading_success (regs N) st m hcb hN]

/-- Witness for `C5_poller`: on a schedule where `"mic"` appears at tick 2,
running 4 ticks from a fresh load binds once, sets the flag and stops. -/
theorem C5_poller_witness :
    (run_poller regSched stFresh 4).1.sources_loaded = true ∧
    (run_poller regSched stFresh 4).1.timer_on = false ∧
    (run_poller regSched stFresh 4).2.count (Event.connect "mic") = 1 := by
  have h := C5_poller regSched stFresh 2 4 false rfl rfl rfl (by decide) (by decide)
    (by decide)
  rw [h]
  decide

end MuteIndicator
